import Mathlib

/-!
# Verification of the vmchecker submission intake path (`vmchecker/submit.py`)

This file gives a shallow embedding of the submission admission pipeline of
`src/vmchecker/submit.py`: policy checks (submission window, hard deadline,
rate limiting), the backup-and-publish of a submission version under the
per-assignment lock, testing-bundle assembly, and dispatch over ssh.

Modelling conventions:
* Timestamps are natural numbers (seconds).  The source parses textual
  timestamps with a single shared format (`config.DATE_FORMAT`,
  `penalty.str_to_time`); parsing is monotone and injective at one-second
  granularity, so comparisons on parsed times are comparisons on `Nat`.
* Python exceptions become an error structure carrying the exception class
  (`ErrorKind`) and the message string, returned through `Except`.
* Filesystem and network side effects are recorded as an ordered trace of
  `Action`s; fallible external operations (unzip, archive-size check, the
  ssh transfer, the results-dir creation) are parameterised by a boolean
  recording whether the environment lets them succeed.
* The per-(assignment, account) current-submission symlink plus the set of
  version directories is the `StoreState`; the per-assignment lock
  serialises admissions, so a concurrent history is a sequence of
  admissions in lock-acquisition order.
-/

deriving instance DecidableEq for Except

namespace Vmchecker

/-- Constant `DEADLINE_GRACE_TIME = 60` (submit.py line 41): extra minute of grace
past a hard deadline. -/
def DEADLINE_GRACE_TIME : Nat := 60

/-- The Python exception class raised by an operation of submit.py.
`submittedTooSoonError` and `submittedTooLateError` are the two classes
defined in submit.py itself; the remaining kinds stand for the exceptions
of the collaborator modules (`ziputil`, `socket`/`paramiko`, `os`). -/
inductive ErrorKind where
  | submittedTooSoonError
  | submittedTooLateError
  | archiveTooLargeError
  | archiveOverrideError
  | unsafeArchiveEntryError
  | dispatchError
  | storageError
deriving DecidableEq, Repr

/-- An exception value: its class together with its message. -/
structure SubmitError where
  kind : ErrorKind
  message : String
deriving DecidableEq, Repr

/-- The exception class of a computation result, `none` when it succeeded. -/
def resultKind {α : Type} : Except SubmitError α → Option ErrorKind
  | Except.error e => some e.kind
  | Except.ok _ => none

/-- Course-wide upload window, `vmcfg.upload_active_interval()`. -/
structure CourseConfig where
  activeStart : Nat
  activeStop : Nat
deriving DecidableEq, Repr

/-- Per-assignment configuration as read from the course config:
`is_deadline_hard`, the `Deadline` value, `timedelta` (the minimum time
between submissions), `AssignmentStorage` (`large` or not), and
`submit_only`. -/
structure AssignmentConfig where
  isDeadlineHard : Bool
  deadline : Nat
  timedelta : Nat
  storageLarge : Bool
  submitOnly : Bool
deriving DecidableEq, Repr

/-- Modelled from the spec: the Submission Index (the `submissions` module
is not under src/; submit.py only calls it).  Per (assignment, account) it
holds `lastUploadTime` and `lastEvalQueueingTime`, both nullable
(§3 SubmissionIndexEntry). -/
structure SubmissionIndexEntry where
  uploadTime : Option Nat
  evalQueueingTime : Option Nat
deriving DecidableEq, Repr

/-- Modelled from the spec: `subm.submission_exists` / `get_upload_time` /
`get_eval_queueing_time` return "none" when no record exists and never
fail (§4.6).  A whole index entry is `Option SubmissionIndexEntry`:
`none` when no submission exists for the pair. -/
def indexEvalQueueingTime (entry : Option SubmissionIndexEntry) : Option Nat :=
  match entry with
  | none => none
  | some e => e.evalQueueingTime

/-- Function `submitted_too_soon` (submit.py lines 317-341): false when no
submission exists; otherwise inspect the eval-queueing time or the upload
time according to `check_eval_queueing_time`; false when that time is
`None`; otherwise true exactly when `check_time + timedelta - now > 0`. -/
def submitted_too_soon (acfg : AssignmentConfig)
    (entry : Option SubmissionIndexEntry)
    (check_eval_queueing_time : Bool) (now : Nat) : Bool :=
  match entry with
  | none => false
  | some e =>
    let check_time := if check_eval_queueing_time then e.evalQueueingTime
                      else e.uploadTime
    match check_time with
    | none => false
    | some t => decide (now < t + acfg.timedelta)

/-- The message of the submission-window error (submit.py lines 379-381):
built from both bounds of the active interval. -/
def windowMessage (activeStart activeStop : Nat) : String :=
  "You can only submit homework between " ++ toString activeStart ++
    " and " ++ toString activeStop ++ "."

/-- The message of the hard-deadline error (submit.py lines 392-394). -/
def tooLateMessage (deadline upload_time : Nat) : String :=
  "You submited too late Deadline was " ++ toString deadline ++
    " and you submited at " ++ toString upload_time ++ "."

/-- The message of the rate-limit error (submit.py lines 403-405). -/
def tooSoonMessage (timedelta : Nat) : String :=
  "You are submitting too fast." ++
    "Please allow " ++ toString timedelta ++ " between submissions"

/-- Function `check_valid_time` (submit.py lines 357-405).  Stages in order, first
failure wins: (1) the upload time must lie in the inclusive window
`[activeStart, activeStop]`, else `SubmittedTooSoonError` with both bounds
in the message; (2) when the deadline is hard, `upload_ts >
DEADLINE_GRACE_TIME + deadline_ts` raises `SubmittedTooLateError`;
(3) unless `skip_toosoon_check`, `submitted_too_soon` raises
`SubmittedTooSoonError`. -/
def check_valid_time (course : CourseConfig) (acfg : AssignmentConfig)
    (entry : Option SubmissionIndexEntry) (upload_time : Nat) (now : Nat)
    (skip_toosoon_check check_eval_queueing_time : Bool) :
    Except SubmitError Unit :=
  if upload_time < course.activeStart ∨ course.activeStop < upload_time then
    Except.error ⟨ErrorKind.submittedTooSoonError,
                  windowMessage course.activeStart course.activeStop⟩
  else if acfg.isDeadlineHard = true ∧
          DEADLINE_GRACE_TIME + acfg.deadline < upload_time then
    Except.error ⟨ErrorKind.submittedTooLateError,
                  tooLateMessage acfg.deadline upload_time⟩
  else if skip_toosoon_check = true then
    Except.ok ()
  else if submitted_too_soon acfg entry check_eval_queueing_time now = true then
    Except.error ⟨ErrorKind.submittedTooSoonError, tooSoonMessage acfg.timedelta⟩
  else
    Except.ok ()

/-- One observable side effect of the pipeline, in program order.  The
`String` arguments name the filesystem object acted on. -/
inductive Action where
  | makeDirs (path : String)
  | writeConfig (path : String)
  | copyMd5 (path : String)
  | copyArchive (path : String)
  | unzipArchive (path : String)
  | unlinkCur
  | symlinkCur (target : String)
  | makeResultsDir (path : String)
  | writeGradeFile (path : String)
  | removeResultsDir (path : String)
  | setEvalParams (archive : String) (time : Nat)
  | createBundle (path : String)
  | sshPut (path : String)
  | removeBundle (path : String)
deriving DecidableEq, Repr

/-- Payload actions of a submission version: everything `submission_backup`
does after writing the submission-config (copying the md5 file, copying the
original archive, expanding it). -/
def Action.isPayload : Action → Bool
  | Action.copyMd5 _ => true
  | Action.copyArchive _ => true
  | Action.unzipArchive _ => true
  | _ => false

/-- Function `submission_backup` (submit.py lines 109-156): create the directory
tree, write the submission config first ("Do this before unzipping (which
might fail)"), then for `large` storage copy the md5 file, otherwise copy
the unmodified archive byte-for-byte and only then expand it through
`ziputil.unzip_safely`.  `unzipOk` records whether the (external) safe
unzip succeeds; the returned flag is whether the whole backup succeeded. -/
def submission_backup (back_dir : String) (storageLarge unzipOk : Bool) :
    List Action × Bool :=
  if storageLarge = true then
    ([Action.makeDirs back_dir, Action.writeConfig back_dir,
      Action.copyMd5 back_dir], true)
  else
    ([Action.makeDirs back_dir, Action.writeConfig back_dir,
      Action.copyArchive back_dir, Action.unzipArchive back_dir], unzipOk)

/-- The per-(assignment, account) storage: the version directories on disk
and the target of the current-submission symlink (`none` when no symlink
exists).  `Option` captures that at most one symlink exists per pair. -/
structure StoreState where
  dirs : List String
  cur : Option String
deriving DecidableEq, Repr

/-- Function `save_submission_in_storer` (submit.py lines 172-213), body of the
per-assignment exclusive section: back the submission up into the fresh
version directory `new_sb`, then swap the current-submission symlink
(`os.unlink` of the old one when it exists, then `os.symlink` to
`new_sb`).  On a failed backup the partially written version directory is
left on disk and the symlink is untouched. -/
def save_submission_in_storer (s : StoreState) (new_sb : String)
    (storageLarge unzipOk : Bool) : StoreState × Bool × List Action :=
  if (submission_backup new_sb storageLarge unzipOk).2 = true then
    (⟨s.dirs ++ [new_sb], some new_sb⟩, true,
      (submission_backup new_sb storageLarge unzipOk).1 ++
        (if s.cur.isSome then [Action.unlinkCur] else []) ++
        [Action.symlinkCur new_sb])
  else
    (⟨s.dirs ++ [new_sb], s.cur⟩, false,
      (submission_backup new_sb storageLarge unzipOk).1)

/-- A sequence of successful standard-storage admissions for one
(assignment, account) pair, applied in lock-acquisition order (the
per-assignment lock of submit.py line 199 totally orders them). -/
def admitSeq (s : StoreState) (vs : List String) : StoreState :=
  vs.foldl (fun st v => (save_submission_in_storer st v false true).1) s

/-- Machine profile of an assignment (`config.VirtualMachineConfig`):
run/build scripts and the optional custom runner (the empty string when no
custom runner is declared, as in submit.py line 261). -/
structure MachineConfig where
  guestRunScript : String
  guestBuildScript : String
  customRunner : String
deriving DecidableEq, Repr

/-- Source paths resolved by `paths`/`vmpaths` for one current submission:
the tests archive, the course config file, and the submission config and
archive inside the current version directory. -/
structure PathsConfig where
  testsPath : String
  configFile : String
  submissionConfigFile : String
  submissionArchiveFile : String
deriving DecidableEq, Repr

/-- The list `rel_file_list` as first built in `create_testing_bundle`
(submit.py lines 240-244): run.sh, build.sh, tests.zip, course-config,
submission-config, each a (destination name, source path) pair. -/
def bundle_base_file_list (mc : MachineConfig) (p : PathsConfig) :
    List (String × String) :=
  [("run.sh", mc.guestRunScript),
   ("build.sh", mc.guestBuildScript),
   ("tests.zip", p.testsPath),
   ("course-config", p.configFile),
   ("submission-config", p.submissionConfigFile)]

/-- The list `should_not_contain` (submit.py line 258): the destination names of
`rel_file_list` at the moment of the override check — the five base
entries plus `archive.zip`, appended at line 249 before the check.  The
custom runner is appended only later (lines 261-262), after the check. -/
def bundle_should_not_contain (mc : MachineConfig) (p : PathsConfig) :
    List String :=
  (bundle_base_file_list mc p ++ [("archive.zip", p.submissionArchiveFile)]).map
    Prod.fst

/-- The destination names of the finished bundle manifest (`file_list`,
submit.py line 264): base entries, plus `archive.zip` unless storage is
`large`, plus the custom runner when one is declared, dropping pairs with
an empty source path. -/
def bundle_full_manifest (acfg : AssignmentConfig) (mc : MachineConfig)
    (p : PathsConfig) : List (String × String) :=
  let rel0 := bundle_base_file_list mc p
  let rel1 := if acfg.storageLarge = false then
                rel0 ++ [("archive.zip", p.submissionArchiveFile)]
              else rel0
  let rel2 := if mc.customRunner = "" then rel1
              else rel1 ++ [(mc.customRunner, mc.customRunner)]
  rel2.filter fun ds => ds.2 ≠ ""

/-- Whether an archive entry name contains a parent-directory traversal
segment, i.e. a path component equal to `..` when split on slashes. -/
def hasTraversalSegment (e : String) : Bool :=
  (e.data.splitOn '/').contains ('.' :: '.' :: [])

/-- Whether an archive entry name is an absolute path (starts with a
slash). -/
def isAbsolutePath (e : String) : Bool :=
  match e.data with
  | '/' :: _ => true
  | _ => false

/-- Modelled from the spec: `ziputil.check_archive_for_file_override` (the
`ziputil` module is not under src/).  Per §4.1 it fails with
`ArchiveOverrideAttempt` when any entry's normalized path equals a
reserved path, contains a parent-directory traversal segment, or is an
absolute path.  Returns `true` when the archive must be rejected. -/
def check_archive_for_file_override (entries reserved : List String) : Bool :=
  entries.any fun e =>
    reserved.contains e || hasTraversalSegment e || isAbsolutePath e

/-- Function `create_testing_bundle` (submit.py lines 218-283).  For non-`large`
storage, `archive.zip` is appended to `rel_file_list` and the submission's
own archive is checked against the destination names collected so far; on
an override the exception propagates before any bundle file is created.
Otherwise the custom runner is appended when declared and the bundle zip
is created at a fresh temporary path inside the per-assignment lock.
`archiveEntries` lists the entry names of the submission's stored
`archive.zip`. -/
def create_testing_bundle (acfg : AssignmentConfig) (mc : MachineConfig)
    (p : PathsConfig) (archiveEntries : List String) (bundle_path : String) :
    Except SubmitError String × List Action :=
  if acfg.storageLarge = false ∧
     check_archive_for_file_override archiveEntries
       (bundle_should_not_contain mc p) = true then
    (Except.error ⟨ErrorKind.archiveOverrideError,
                   "archive contains an entry overriding a bundle file"⟩, [])
  else
    (Except.ok bundle_path, [Action.createBundle bundle_path])

/-- Function `ssh_bundle` (submit.py lines 286-313): connect to the tester,
authenticate with the storer's private key and `sftp.put` the bundle into
the remote queue directory; the transport is closed on every exit path.
Any transport or authentication failure propagates as an exception;
`ssh_bundle` itself never deletes the bundle and never retries. -/
def ssh_bundle (bundle_path : String) (transportOk : Bool) :
    Except SubmitError Unit × List Action :=
  if transportOk = true then
    (Except.ok (), [Action.sshPut bundle_path])
  else
    (Except.error ⟨ErrorKind.dispatchError, "transport or authentication failure"⟩,
      [Action.sshPut bundle_path])

/-- Function `queue_for_testing` (submit.py lines 345-353): build the bundle, then
`try: ssh_bundle(...) finally: os.remove(bundle_path)` — the bundle file
is removed whether the transfer succeeded or failed. -/
def queue_for_testing (acfg : AssignmentConfig) (mc : MachineConfig)
    (p : PathsConfig) (archiveEntries : List String) (bundle_path : String)
    (transportOk : Bool) : Except SubmitError Unit × List Action :=
  match create_testing_bundle acfg mc p archiveEntries bundle_path with
  | (Except.error e, t) => (Except.error e, t)
  | (Except.ok bp, t) =>
    ((ssh_bundle bp transportOk).1,
      t ++ (ssh_bundle bp transportOk).2 ++ [Action.removeBundle bp])

/-- The skip flag and upload time that `submit` actually uses
(submit.py lines 425-429): a forced upload time unconditionally sets
`skip_toosoon_check = True` and replaces the current time. -/
def submitEffectiveParams (skip_toosoon_check : Bool)
    (forced_upload_time : Option Nat) (now : Nat) : Bool × Nat :=
  match forced_upload_time with
  | some t => (true, t)
  | none => (skip_toosoon_check, now)

/-- Function `submit` (submit.py lines 408-460): run `check_valid_time` with
`check_eval_queueing_time = False`; for non-`large` storage check the
archive size (`sizeOk` records the outcome of the external
`ziputil.check_archive_size`); save the submission in the storer; for a
submit-only assignment create the results directory and write a dummy
`grade.vmr` (`resultsOk` records whether those writes succeed) and return
without dispatching; otherwise queue for testing unless storage is
`large`.  Returns the result, the final store state for the
(assignment, account) pair, and the trace of side effects. -/
def submit (course : CourseConfig) (acfg : AssignmentConfig)
    (mc : MachineConfig) (p : PathsConfig)
    (entry : Option SubmissionIndexEntry) (s : StoreState)
    (new_sb : String) (archiveEntries : List String) (bundle_path : String)
    (skip_toosoon_check : Bool) (forced_upload_time : Option Nat) (now : Nat)
    (sizeOk unzipOk transportOk resultsOk : Bool) :
    Except SubmitError Unit × StoreState × List Action :=
  match check_valid_time course acfg entry
      (submitEffectiveParams skip_toosoon_check forced_upload_time now).2 now
      (submitEffectiveParams skip_toosoon_check forced_upload_time now).1 false with
  | Except.error e => (Except.error e, s, [])
  | Except.ok _ =>
    if acfg.storageLarge = false ∧ sizeOk = false then
      (Except.error ⟨ErrorKind.archiveTooLargeError, "archive too large"⟩, s, [])
    else
      if (save_submission_in_storer s new_sb acfg.storageLarge unzipOk).2.1 = false then
        (Except.error ⟨ErrorKind.unsafeArchiveEntryError, "unsafe archive entry"⟩,
          (save_submission_in_storer s new_sb acfg.storageLarge unzipOk).1,
          (save_submission_in_storer s new_sb acfg.storageLarge unzipOk).2.2)
      else if acfg.submitOnly = true then
        if resultsOk = true then
          (Except.ok (), (save_submission_in_storer s new_sb acfg.storageLarge unzipOk).1,
            (save_submission_in_storer s new_sb acfg.storageLarge unzipOk).2.2 ++
              [Action.makeResultsDir new_sb, Action.writeGradeFile new_sb])
        else
          (Except.error ⟨ErrorKind.storageError, "Failed to save assignment"⟩,
            (save_submission_in_storer s new_sb acfg.storageLarge unzipOk).1,
            (save_submission_in_storer s new_sb acfg.storageLarge unzipOk).2.2 ++
              [Action.makeResultsDir new_sb])
      else if acfg.storageLarge = false then
        ((queue_for_testing acfg mc p archiveEntries bundle_path transportOk).1,
          (save_submission_in_storer s new_sb acfg.storageLarge unzipOk).1,
          (save_submission_in_storer s new_sb acfg.storageLarge unzipOk).2.2 ++
            (queue_for_testing acfg mc p archiveEntries bundle_path transportOk).2)
      else
        (Except.ok (), (save_submission_in_storer s new_sb acfg.storageLarge unzipOk).1,
          (save_submission_in_storer s new_sb acfg.storageLarge unzipOk).2.2)

/-- Operation `set_eval_parameters` on the Submission Index entry: record the archive
file name and the evaluation-queueing time (the upload time is
untouched).  Modelled from the spec for the `submissions` module, which is
not under src/ (§4.6: "update either timestamp for
(assignment, account)"). -/
def setEvalParams (entry : Option SubmissionIndexEntry) (t : Nat) :
    Option SubmissionIndexEntry :=
  match entry with
  | none => some ⟨none, some t⟩
  | some e => some ⟨e.uploadTime, some t⟩

/-- Function `evaluate_large_submission` (submit.py lines 463-494): reject
non-`large` assignments; skip the rate-limit check exactly when the pair
has never been queued for evaluation before; run `check_valid_time`
against the current time with `check_eval_queueing_time = True`; remove
any stale results directory; record the eval parameters (archive name and
queueing time) in the submission config; then `queue_for_testing`.
Returns the result, the updated index entry, and the trace. -/
def evaluate_large_submission (course : CourseConfig) (acfg : AssignmentConfig)
    (mc : MachineConfig) (p : PathsConfig)
    (entry : Option SubmissionIndexEntry)
    (archive_fname bundle_path results_dir : String) (now : Nat)
    (resultsDirExists transportOk : Bool) :
    Except SubmitError Unit × Option SubmissionIndexEntry × List Action :=
  if acfg.storageLarge = false then
    (Except.error ⟨ErrorKind.storageError,
                   "Called evaluate_large_submission for a non-large submission"⟩,
      entry, [])
  else
    match check_valid_time course acfg entry now now
        (indexEvalQueueingTime entry).isNone true with
    | Except.error e => (Except.error e, entry, [])
    | Except.ok _ =>
      ((queue_for_testing acfg mc p [] bundle_path transportOk).1,
        setEvalParams entry now,
        (if resultsDirExists then [Action.removeResultsDir results_dir] else []) ++
          [Action.setEvalParams archive_fname now] ++
          (queue_for_testing acfg mc p [] bundle_path transportOk).2)

/-- Dispatch-related actions: creating a testing bundle and transferring
it to the tester.  A submit-only submission must perform none of these. -/
def Action.isDispatch : Action → Bool
  | Action.createBundle _ => true
  | Action.sshPut _ => true
  | _ => false

/-! ## Helper lemmas -/

/-- An upload outside the window makes `check_valid_time` fail with the
window error, whatever the other inputs. -/
theorem check_valid_time_window_fail (course : CourseConfig)
    (acfg : AssignmentConfig) (entry : Option SubmissionIndexEntry)
    (ut now : Nat) (skip chk : Bool)
    (h : ut < course.activeStart ∨ course.activeStop < ut) :
    check_valid_time course acfg entry ut now skip chk =
      Except.error ⟨ErrorKind.submittedTooSoonError,
                    windowMessage course.activeStart course.activeStop⟩ := by
  simp only [check_valid_time, if_pos h]

/-- An upload inside the window but strictly past a hard deadline plus the
grace minute makes `check_valid_time` fail with the too-late error. -/
theorem check_valid_time_deadline_fail (course : CourseConfig)
    (acfg : AssignmentConfig) (entry : Option SubmissionIndexEntry)
    (ut now : Nat) (skip chk : Bool)
    (h1 : ¬ (ut < course.activeStart ∨ course.activeStop < ut))
    (h2 : acfg.isDeadlineHard = true)
    (h3 : DEADLINE_GRACE_TIME + acfg.deadline < ut) :
    check_valid_time course acfg entry ut now skip chk =
      Except.error ⟨ErrorKind.submittedTooLateError,
                    tooLateMessage acfg.deadline ut⟩ := by
  simp only [check_valid_time, if_neg h1, if_pos (And.intro h2 h3)]

/-- With the rate-limit check skipped, `check_valid_time` never consults
the submission index entry. -/
theorem check_valid_time_skip_ignores_entry (course : CourseConfig)
    (acfg : AssignmentConfig) (e₁ e₂ : Option SubmissionIndexEntry)
    (ut now : Nat) (chk : Bool) :
    check_valid_time course acfg e₁ ut now true chk =
      check_valid_time course acfg e₂ ut now true chk := by
  simp [check_valid_time]

/-- The state after one successful standard-storage admission. -/
theorem save_submission_ok_state (s : StoreState) (v : String) :
    (save_submission_in_storer s v false true).1 =
      ⟨s.dirs ++ [v], some v⟩ := rfl

/-- Unfolding one admission of a sequence. -/
theorem admitSeq_cons (s : StoreState) (v : String) (vs : List String) :
    admitSeq s (v :: vs) = admitSeq ⟨s.dirs ++ [v], some v⟩ vs := rfl

/-- Every admitted version directory stays on disk: the directories after
a sequence of admissions are the old ones followed by the new ones. -/
theorem admitSeq_dirs (s : StoreState) (vs : List String) :
    (admitSeq s vs).dirs = s.dirs ++ vs := by
  induction vs generalizing s with
  | nil => simp [admitSeq]
  | cons v vs ih => rw [admitSeq_cons, ih]; simp

/-- After a nonempty sequence of admissions the current-submission symlink
targets the last admitted version. -/
theorem admitSeq_cur (s : StoreState) (vs : List String) (h : vs ≠ []) :
    (admitSeq s vs).cur = some (vs.getLast h) := by
  induction vs generalizing s with
  | nil => exact absurd rfl h
  | cons v vs ih =>
    cases vs with
    | nil => rfl
    | cons w ws =>
      rw [admitSeq_cons, ih ⟨(s.dirs ++ [v] : List String), some v⟩ (by simp)]
      congr 1

/-! ## Theorems -/

/-- Claim C5: the rate-limit check fails with the too-soon error exactly
when a prior record exists for the pair whose relevant timestamp (upload
time or eval-queueing time, selected by `check_eval_queueing_time`) is
non-null and satisfies `priorTimestamp + minSubmitInterval > now`; with no
prior record, or a null relevant timestamp, the check passes without
raising. -/
theorem rate_limit_check_characterisation (course : CourseConfig)
    (acfg : AssignmentConfig) (entry : Option SubmissionIndexEntry)
    (chk : Bool) (now ut : Nat)
    (hwin : course.activeStart ≤ ut ∧ ut ≤ course.activeStop)
    (hdl : ¬ (acfg.isDeadlineHard = true ∧
              DEADLINE_GRACE_TIME + acfg.deadline < ut)) :
    (submitted_too_soon acfg entry chk now = true ↔
      ∃ e, entry = some e ∧
        ∃ t, (if chk then e.evalQueueingTime else e.uploadTime) = some t ∧
          now < t + acfg.timedelta) ∧
    (check_valid_time course acfg entry ut now false chk = Except.ok () ↔
      submitted_too_soon acfg entry chk now = false) ∧
    (submitted_too_soon acfg entry chk now = true →
      check_valid_time course acfg entry ut now false chk =
        Except.error ⟨ErrorKind.submittedTooSoonError,
                      tooSoonMessage acfg.timedelta⟩) := by
  have h1 : ¬ (ut < course.activeStart ∨ course.activeStop < ut) := by omega
  refine ⟨?_, ?_, ?_⟩
  · cases entry with
    | none => simp [submitted_too_soon]
    | some e =>
      cases chk <;>
        · simp only [submitted_too_soon, Bool.false_eq_true, if_false, if_true,
            Option.some.injEq]
          cases h : (if false = true then e.evalQueueingTime else e.uploadTime) <;>
            cases h' : e.uploadTime <;> cases h'' : e.evalQueueingTime <;>
            simp_all
  · simp only [check_valid_time, if_neg h1, if_neg hdl]
    cases hs : submitted_too_soon acfg entry chk now <;> simp [hs]
  · intro hs
    simp only [check_valid_time, if_neg h1, if_neg hdl]
    simp [hs]

/-- Witness for C5: a prior upload at time 100 with a 3600-second minimum
interval makes an upload at time 200 fail with the too-soon error. -/
theorem rate_limit_check_characterisation_witness :
    check_valid_time ⟨0, 10000⟩ ⟨false, 0, 3600, false, false⟩
      (some ⟨some 100, none⟩) 200 200 false false =
      Except.error ⟨ErrorKind.submittedTooSoonError, tooSoonMessage 3600⟩ :=
  (rate_limit_check_characterisation ⟨0, 10000⟩ ⟨false, 0, 3600, false, false⟩
    (some ⟨some 100, none⟩) false 200 200 (by decide) (by decide)).2.2 (by decide)

/-- Claim C3 (amended): an upload outside the inclusive window
`[activeStart, activeStop]` makes the time-validity check fail with a
`SubmittedTooSoonError` whose message includes both bounds; this is the
same exception class as the rate-limit error, so the two failures are
distinguishable by message only, not by error kind. -/
theorem window_check_error (course : CourseConfig) (acfg : AssignmentConfig)
    (entry : Option SubmissionIndexEntry) (ut now : Nat) (skip chk : Bool)
    (h : ut < course.activeStart ∨ course.activeStop < ut) :
    check_valid_time course acfg entry ut now skip chk =
      Except.error ⟨ErrorKind.submittedTooSoonError,
                    windowMessage course.activeStart course.activeStop⟩ ∧
    (∃ pre post, windowMessage course.activeStart course.activeStop =
        pre ++ toString course.activeStart ++ post) ∧
    (∃ pre post, windowMessage course.activeStart course.activeStop =
        pre ++ toString course.activeStop ++ post) := by
  refine ⟨by simp only [check_valid_time, if_pos h], ?_, ?_⟩
  · exact ⟨"You can only submit homework between ",
      " and " ++ toString course.activeStop ++ ".",
      by simp [windowMessage, String.append_assoc]⟩
  · exact ⟨"You can only submit homework between " ++
        toString course.activeStart ++ " and ", ".",
      by simp [windowMessage, String.append_assoc]⟩

/-- Witness for C3: an upload at time 5 before a window starting at 10. -/
theorem window_check_error_witness :
    check_valid_time ⟨10, 20⟩ ⟨false, 0, 5, false, false⟩ none 5 5 false false =
      Except.error ⟨ErrorKind.submittedTooSoonError, windowMessage 10 20⟩ :=
  (window_check_error ⟨10, 20⟩ ⟨false, 0, 5, false, false⟩ none 5 5 false false
    (by decide)).1

/-- Counterexample for C3: at concrete inputs a submission-window failure
and a rate-limit failure carry the same exception class
(`SubmittedTooSoonError`), refuting that the window error is a distinct
error kind from the rate-limit error. -/
theorem window_error_kind_not_distinct :
    resultKind (check_valid_time ⟨10, 20⟩ ⟨false, 0, 5, false, false⟩
        none 5 5 false false) = some ErrorKind.submittedTooSoonError ∧
    resultKind (check_valid_time ⟨0, 100⟩ ⟨false, 0, 50, false, false⟩
        (some ⟨some 40, none⟩) 50 50 false false) =
      some ErrorKind.submittedTooSoonError := by decide

/-- Claim C4: the time-validity check fails with `SubmittedTooLateError`
exactly when the upload lies inside the window, the assignment declares a
hard deadline, and the upload timestamp strictly exceeds
`deadline + DEADLINE_GRACE_TIME`; an upload at exactly `deadline + 60`
passes this stage and assignments without a hard deadline skip it; when
`submit` fails with this error the store state is unchanged and no side
effect was performed (no new version is created). -/
theorem hard_deadline_check (course : CourseConfig) (acfg : AssignmentConfig)
    (entry : Option SubmissionIndexEntry) (ut now : Nat) (skip chk : Bool) :
    (resultKind (check_valid_time course acfg entry ut now skip chk) =
        some ErrorKind.submittedTooLateError ↔
      (course.activeStart ≤ ut ∧ ut ≤ course.activeStop) ∧
        acfg.isDeadlineHard = true ∧
        DEADLINE_GRACE_TIME + acfg.deadline < ut) ∧
    (∀ mc p s new_sb ae bp sk fo sizeOk unzipOk transportOk resultsOk e s' tr,
      submit course acfg mc p entry s new_sb ae bp sk fo now
          sizeOk unzipOk transportOk resultsOk = (Except.error e, s', tr) →
      e.kind = ErrorKind.submittedTooLateError → s' = s ∧ tr = []) := by
  constructor
  · by_cases h1 : ut < course.activeStart ∨ course.activeStop < ut
    · simp only [check_valid_time, if_pos h1, resultKind]
      constructor
      · intro h; exact absurd h (by simp)
      · intro h; omega
    · by_cases h2 : acfg.isDeadlineHard = true ∧
          DEADLINE_GRACE_TIME + acfg.deadline < ut
      · simp only [check_valid_time, if_neg h1, if_pos h2, resultKind]
        simp only [Option.some.injEq, true_iff]
        exact ⟨by omega, h2⟩
      · simp only [check_valid_time, if_neg h1, if_neg h2]
        constructor
        · intro h
          by_cases h3 : skip = true
          · rw [if_pos h3] at h; simp [resultKind] at h
          · rw [if_neg h3] at h
            by_cases h4 : submitted_too_soon acfg entry chk now = true
            · rw [if_pos h4] at h; simp [resultKind] at h
            · rw [if_neg h4] at h; simp [resultKind] at h
        · intro h; exact absurd ⟨h.2.1, h.2.2⟩ h2
  · intro mc p s new_sb ae bp sk fo sizeOk unzipOk transportOk resultsOk e s' tr
      hsub hk
    unfold submit at hsub
    cases hc : check_valid_time course acfg entry
        (submitEffectiveParams sk fo now).2 now
        (submitEffectiveParams sk fo now).1 false with
    | error e' =>
      rw [hc] at hsub
      simp only [Prod.mk.injEq, Except.error.injEq] at hsub
      exact ⟨hsub.2.1.symm, hsub.2.2.symm⟩
    | ok u =>
      rw [hc] at hsub
      exfalso
      by_cases hsz : acfg.storageLarge = false ∧ sizeOk = false
      · rw [if_pos hsz] at hsub
        simp only [Prod.mk.injEq, Except.error.injEq] at hsub
        rw [← hsub.1] at hk; simp at hk
      · rw [if_neg hsz] at hsub
        by_cases hok : (save_submission_in_storer s new_sb acfg.storageLarge
            unzipOk).2.1 = false
        · rw [if_pos hok] at hsub
          simp only [Prod.mk.injEq, Except.error.injEq] at hsub
          rw [← hsub.1] at hk; simp at hk
        · rw [if_neg hok] at hsub
          by_cases hso : acfg.submitOnly = true
          · rw [if_pos hso] at hsub
            by_cases hres : resultsOk = true
            · rw [if_pos hres] at hsub
              simp only [Prod.mk.injEq] at hsub
              exact absurd hsub.1 (by simp)
            · rw [if_neg hres] at hsub
              simp only [Prod.mk.injEq, Except.error.injEq] at hsub
              rw [← hsub.1] at hk; simp at hk
          · rw [if_neg hso] at hsub
            by_cases hl : acfg.storageLarge = false
            · rw [if_pos hl] at hsub
              simp only [Prod.mk.injEq] at hsub
              have h5 := hsub.1
              unfold queue_for_testing at h5
              cases hcb : create_testing_bundle acfg mc p ae bp with
              | mk r t =>
                cases r with
                | error eb =>
                  rw [hcb] at h5
                  simp only [Except.error.injEq] at h5
                  unfold create_testing_bundle at hcb
                  by_cases hcc : acfg.storageLarge = false ∧
                      check_archive_for_file_override ae
                        (bundle_should_not_contain mc p) = true
                  · rw [if_pos hcc] at hcb
                    simp only [Prod.mk.injEq, Except.error.injEq] at hcb
                    rw [← h5, ← hcb.1] at hk; simp at hk
                  · rw [if_neg hcc] at hcb
                    simp at hcb
                | ok bp' =>
                  rw [hcb] at h5
                  by_cases htr : transportOk = true
                  · simp [ssh_bundle, htr] at h5
                  · simp [ssh_bundle, htr] at h5
                    rw [← h5] at hk; simp at hk
            · rw [if_neg hl] at hsub
              simp only [Prod.mk.injEq] at hsub
              exact absurd hsub.1 (by simp)

/-- Witness for C4: with a hard deadline at 100 and the window `[0, 1000]`,
an upload at 161 (one second past the 60-second grace) fails with the
too-late error. -/
theorem hard_deadline_check_witness :
    resultKind (check_valid_time ⟨0, 1000⟩ ⟨true, 100, 10, false, false⟩
        none 161 161 false false) = some ErrorKind.submittedTooLateError :=
  (hard_deadline_check ⟨0, 1000⟩ ⟨true, 100, 10, false, false⟩
    none 161 161 false false).1.mpr (by decide)

/-- Claim C6: during backup of a submission version the submission-config
is written before any payload action (the config write lies in the
payload-free prefix of the trace), and for non-large storage the original
archive is copied byte-for-byte into the version directory strictly
before the unpack is attempted; the two concrete traces are exactly those
of `submission_backup`. -/
theorem backup_config_before_payload (dir : String)
    (storageLarge unzipOk : Bool) :
    Action.writeConfig dir ∈
      ((submission_backup dir storageLarge unzipOk).1.takeWhile
        fun a => a.isPayload = false) ∧
    (storageLarge = false →
      ∃ pre mid post, (submission_backup dir storageLarge unzipOk).1 =
        pre ++ Action.copyArchive dir :: (mid ++ Action.unzipArchive dir :: post)) ∧
    (submission_backup dir false unzipOk).1 =
      [Action.makeDirs dir, Action.writeConfig dir, Action.copyArchive dir,
       Action.unzipArchive dir] ∧
    (submission_backup dir true unzipOk).1 =
      [Action.makeDirs dir, Action.writeConfig dir, Action.copyMd5 dir] := by
  cases storageLarge with
  | false =>
    refine ⟨?_, fun _ => ⟨[Action.makeDirs dir, Action.writeConfig dir], [], [],
      rfl⟩, rfl, rfl⟩
    simp [submission_backup, List.takeWhile, Action.isPayload]
  | true =>
    refine ⟨?_, fun h => absurd h (by simp), rfl, rfl⟩
    simp [submission_backup, List.takeWhile, Action.isPayload]

/-- Witness for C6: the non-large backup trace of version directory `v1`
places the config write before the archive copy and the unpack. -/
theorem backup_config_before_payload_witness :
    (submission_backup "v1" false true).1 =
      [Action.makeDirs "v1", Action.writeConfig "v1", Action.copyArchive "v1",
       Action.unzipArchive "v1"] :=
  (backup_config_before_payload "v1" false true).2.2.1

/-- Claim C7 (amended): at bundle-build time for non-large storage the
submission's archive is checked against the reserved names collected
before the custom runner is appended — run.sh, build.sh, tests.zip,
course-config, submission-config, archive.zip — and when any archive
entry equals one of these names the build fails with the archive-override
error, producing no bundle.  The declared custom runner is not among the
names checked. -/
theorem bundle_override_check (acfg : AssignmentConfig) (mc : MachineConfig)
    (p : PathsConfig) (entries : List String) (bp : String)
    (hl : acfg.storageLarge = false) :
    bundle_should_not_contain mc p =
      ["run.sh", "build.sh", "tests.zip", "course-config",
       "submission-config", "archive.zip"] ∧
    ((∃ e ∈ entries, e ∈ bundle_should_not_contain mc p) →
      create_testing_bundle acfg mc p entries bp =
        (Except.error ⟨ErrorKind.archiveOverrideError,
          "archive contains an entry overriding a bundle file"⟩, [])) := by
  constructor
  · rfl
  · intro h
    have hchk : check_archive_for_file_override entries
        (bundle_should_not_contain mc p) = true := by
      obtain ⟨e, he, hr⟩ := h
      simp only [check_archive_for_file_override, List.any_eq_true]
      exact ⟨e, he, by simp [hr]⟩
    simp only [create_testing_bundle, if_pos (And.intro hl hchk)]

/-- Witness for C7 (amended): an archive whose sole entry is named
`course-config` is rejected at bundle-build time with no bundle created. -/
theorem bundle_override_check_witness :
    create_testing_bundle ⟨false, 0, 0, false, false⟩ ⟨"r", "b", ""⟩
        ⟨"t", "c", "s", "a"⟩ ["course-config"] "bundle.zip" =
      (Except.error ⟨ErrorKind.archiveOverrideError,
        "archive contains an entry overriding a bundle file"⟩, []) :=
  (bundle_override_check ⟨false, 0, 0, false, false⟩ ⟨"r", "b", ""⟩
    ⟨"t", "c", "s", "a"⟩ ["course-config"] "bundle.zip" rfl).2
    ⟨"course-config", by simp, by decide⟩

/-- Counterexample for C7: with a declared custom runner named `myrunner`,
the runner is part of the finished bundle manifest but absent from the
reserved names the override check uses (the check runs before the runner
is appended), and an archive whose single entry is `myrunner` passes the
check — the build succeeds instead of failing. -/
theorem bundle_override_misses_custom_runner :
    "myrunner" ∈ (bundle_full_manifest ⟨false, 0, 0, false, false⟩
        ⟨"runner.sh", "builder.sh", "myrunner"⟩
        ⟨"tests.path", "config.path", "subcfg.path", "arch.path"⟩).map Prod.fst ∧
    "myrunner" ∉ bundle_should_not_contain
        ⟨"runner.sh", "builder.sh", "myrunner"⟩
        ⟨"tests.path", "config.path", "subcfg.path", "arch.path"⟩ ∧
    create_testing_bundle ⟨false, 0, 0, false, false⟩
        ⟨"runner.sh", "builder.sh", "myrunner"⟩
        ⟨"tests.path", "config.path", "subcfg.path", "arch.path"⟩
        ["myrunner"] "bundle.zip" =
      (Except.ok "bundle.zip", [Action.createBundle "bundle.zip"]) := by decide

/-- Claim C8 (amended): on any transport or authentication failure
`ssh_bundle` fails with the transport error and no internal retry is
attempted (the trace holds exactly one transfer attempt), but the bundle
file is not preserved: `queue_for_testing` removes it in a finally clause
on success and failure alike. -/
theorem dispatch_no_retry_bundle_removed (acfg : AssignmentConfig)
    (mc : MachineConfig) (p : PathsConfig) (entries : List String)
    (bp : String) (transportOk : Bool)
    (hok : ¬ (acfg.storageLarge = false ∧
      check_archive_for_file_override entries
        (bundle_should_not_contain mc p) = true)) :
    (transportOk = false →
      (ssh_bundle bp transportOk).1 =
        Except.error ⟨ErrorKind.dispatchError,
                      "transport or authentication failure"⟩ ∧
      resultKind (queue_for_testing acfg mc p entries bp transportOk).1 =
        some ErrorKind.dispatchError) ∧
    (queue_for_testing acfg mc p entries bp transportOk).2.count
      (Action.sshPut bp) = 1 ∧
    Action.removeBundle bp ∈
      (queue_for_testing acfg mc p entries bp transportOk).2 := by
  have hq : queue_for_testing acfg mc p entries bp transportOk =
      ((ssh_bundle bp transportOk).1,
        [Action.createBundle bp] ++ (ssh_bundle bp transportOk).2 ++
          [Action.removeBundle bp]) := by
    simp only [queue_for_testing, create_testing_bundle, if_neg hok]
  cases transportOk with
  | false =>
    refine ⟨fun _ => ⟨rfl, ?_⟩, ?_, ?_⟩
    · rw [hq]; rfl
    · rw [hq]
      simp [ssh_bundle, List.count_cons]
    · rw [hq]
      simp [ssh_bundle]
  | true =>
    refine ⟨fun h => absurd h (by simp), ?_, ?_⟩
    · rw [hq]
      simp [ssh_bundle, List.count_cons]
    · rw [hq]
      simp [ssh_bundle]

/-- Witness for C8 (amended): a failed transfer of `bundle.zip` returns the
dispatch error, attempts exactly one transfer, and still removes the
bundle file. -/
theorem dispatch_no_retry_bundle_removed_witness :
    resultKind (queue_for_testing ⟨false, 0, 0, false, false⟩ ⟨"r", "b", ""⟩
        ⟨"t", "c", "s", "a"⟩ ["main.c"] "bundle.zip" false).1 =
      some ErrorKind.dispatchError :=
  ((dispatch_no_retry_bundle_removed ⟨false, 0, 0, false, false⟩ ⟨"r", "b", ""⟩
    ⟨"t", "c", "s", "a"⟩ ["main.c"] "bundle.zip" false (by decide)).1 rfl).2

/-- Counterexample for C8: at a concrete failed dispatch the bundle file is
removed from disk by `queue_for_testing`'s finally clause — it is not
preserved locally for a caller-level retry. -/
theorem dispatch_failure_removes_bundle :
    resultKind (queue_for_testing ⟨false, 0, 0, false, false⟩ ⟨"r", "b", ""⟩
        ⟨"t", "c", "s", "a"⟩ ["main.c"] "bundle.zip" false).1 =
      some ErrorKind.dispatchError ∧
    Action.removeBundle "bundle.zip" ∈
      (queue_for_testing ⟨false, 0, 0, false, false⟩ ⟨"r", "b", ""⟩
        ⟨"t", "c", "s", "a"⟩ ["main.c"] "bundle.zip" false).2 := by decide

/-- Claim C1: under the per-assignment lock, admissions for one
(assignment, account) pair are totally ordered; after any nonempty
sequence of successful admissions exactly one current-submission symlink
exists for the pair (`cur` is `some` of a single target) and it targets
the version directory of the last admission to complete the pointer swap,
every admitted version directory remains on disk, and with distinct
version names every earlier version is unreferenced by the pointer. -/
theorem current_pointer_last_admission_wins (s : StoreState)
    (vs : List String) (h : vs ≠ []) :
    (admitSeq s vs).cur = some (vs.getLast h) ∧
    (∀ v ∈ vs, v ∈ (admitSeq s vs).dirs) ∧
    (∀ v ∈ s.dirs, v ∈ (admitSeq s vs).dirs) ∧
    (vs.Nodup → ∀ v ∈ vs.dropLast, (admitSeq s vs).cur ≠ some v) := by
  refine ⟨admitSeq_cur s vs h, ?_, ?_, ?_⟩
  · intro v hv; rw [admitSeq_dirs]; exact List.mem_append_right _ hv
  · intro v hv; rw [admitSeq_dirs]; exact List.mem_append_left _ hv
  · intro hnd v hv hcur
    rw [admitSeq_cur s vs h] at hcur
    have hveq : vs.getLast h = v := by
      exact Option.some.inj hcur
    rw [← List.dropLast_append_getLast h] at hnd
    rcases List.nodup_append.mp hnd with ⟨-, -, hdisj⟩
    exact hdisj hv (by simp [hveq])

/-- Witness for C1: two successive admissions leave the pointer on the
second version while the first remains on disk unreferenced. -/
theorem current_pointer_last_admission_wins_witness :
    (admitSeq ⟨[], none⟩ ["va", "vb"]).cur = some "vb" ∧
    "va" ∈ (admitSeq ⟨[], none⟩ ["va", "vb"]).dirs ∧
    (admitSeq ⟨[], none⟩ ["va", "vb"]).cur ≠ some "va" := by
  have h := current_pointer_last_admission_wins ⟨[], none⟩ ["va", "vb"]
    (by decide)
  exact ⟨h.1, h.2.1 "va" (by decide), h.2.2.2 (by decide) "va" (by decide)⟩

/-- Claim C2 (amended): the submission-index timestamps for
(assignment, account) are written only after the policy checks succeed —
a failed admission leaves the rate-limit state for the pair unchanged —
but the eval-queueing timestamp is recorded before dispatch, so a failed
dispatch leaves the timestamp already updated to the queueing time. -/
theorem eval_timestamp_update_order (course : CourseConfig)
    (acfg : AssignmentConfig) (mc : MachineConfig) (p : PathsConfig)
    (entry : Option SubmissionIndexEntry) (af bp rd : String) (now : Nat)
    (rde transportOk : Bool) :
    (resultKind (check_valid_time course acfg entry now now
        (indexEvalQueueingTime entry).isNone true) ≠ none →
      (evaluate_large_submission course acfg mc p entry af bp rd now rde
        transportOk).2.1 = entry ∧
      (evaluate_large_submission course acfg mc p entry af bp rd now rde
        transportOk).2.2 = []) ∧
    (acfg.storageLarge = false →
      (evaluate_large_submission course acfg mc p entry af bp rd now rde
        transportOk).2.1 = entry ∧
      (evaluate_large_submission course acfg mc p entry af bp rd now rde
        transportOk).2.2 = []) ∧
    (acfg.storageLarge = true →
      check_valid_time course acfg entry now now
        (indexEvalQueueingTime entry).isNone true = Except.ok () →
      indexEvalQueueingTime (evaluate_large_submission course acfg mc p entry
        af bp rd now rde transportOk).2.1 = some now ∧
      ∃ pre post, (evaluate_large_submission course acfg mc p entry af bp rd
          now rde transportOk).2.2 =
        pre ++ Action.setEvalParams af now :: post ∧
        ∀ a ∈ pre, ∀ x, a ≠ Action.sshPut x) := by
  by_cases hl : acfg.storageLarge = false
  · refine ⟨?_, ?_, ?_⟩
    · intro _; simp [evaluate_large_submission, hl]
    · intro _; simp [evaluate_large_submission, hl]
    · intro hlt; rw [hlt] at hl; exact Bool.noConfusion hl
  · have hlt : acfg.storageLarge = true := by
      cases hb : acfg.storageLarge
      · exact absurd hb hl
      · rfl
    refine ⟨?_, fun hf => absurd hf hl, ?_⟩
    · intro hne
      unfold evaluate_large_submission
      rw [if_neg hl]
      cases hc : check_valid_time course acfg entry now now
          (indexEvalQueueingTime entry).isNone true with
      | error e => exact ⟨rfl, rfl⟩
      | ok u => rw [hc] at hne; simp [resultKind] at hne
  -- check succeeded: timestamp is written before dispatch
    · intro _ hok
      unfold evaluate_large_submission
      rw [if_neg hl, hok]
      refine ⟨?_, ?_⟩
      · cases entry <;> rfl
      · refine ⟨(if rde = true then [Action.removeResultsDir rd] else []),
          (queue_for_testing acfg mc p [] bp transportOk).2, ?_, ?_⟩
        · cases rde <;> simp
        · intro a ha x
          cases rde <;> simp at ha
          subst ha; simp

/-- Witness for C2 (amended): a large assignment already queued at 200 and
re-queued at 10000 gets its eval-queueing timestamp set to 10000, with
the timestamp write preceding the transfer in the trace. -/
theorem eval_timestamp_update_order_witness :
    indexEvalQueueingTime (evaluate_large_submission ⟨0, 100000⟩
        ⟨false, 0, 60, true, false⟩ ⟨"r", "b", ""⟩ ⟨"t", "c", "s", "a"⟩
        (some ⟨some 100, some 200⟩) "md5.txt" "bundle.zip" "results" 10000
        true false).2.1 = some 10000 :=
  ((eval_timestamp_update_order ⟨0, 100000⟩ ⟨false, 0, 60, true, false⟩
    ⟨"r", "b", ""⟩ ⟨"t", "c", "s", "a"⟩ (some ⟨some 100, some 200⟩)
    "md5.txt" "bundle.zip" "results" 10000 true false).2.2 rfl (by decide)).1

/-- Counterexample for C2: for a large assignment already queued once, a
dispatch failure still leaves the eval-queueing timestamp updated —
`evaluate_large_submission` fails with the transport error yet returns an
index entry whose eval-queueing time moved from 200 to 10000, so the
timestamp was written before the eval-queueing succeeded. -/
theorem failed_dispatch_updates_eval_timestamp :
    resultKind (evaluate_large_submission ⟨0, 100000⟩
        ⟨false, 0, 60, true, false⟩ ⟨"r", "b", ""⟩ ⟨"t", "c", "s", "a"⟩
        (some ⟨some 100, some 200⟩) "md5.txt" "bundle.zip" "results" 10000
        true false).1 = some ErrorKind.dispatchError ∧
    (evaluate_large_submission ⟨0, 100000⟩ ⟨false, 0, 60, true, false⟩
        ⟨"r", "b", ""⟩ ⟨"t", "c", "s", "a"⟩ (some ⟨some 100, some 200⟩)
        "md5.txt" "bundle.zip" "results" 10000 true false).2.1 =
      some ⟨some 100, some 10000⟩ := by decide

/-- Claim C9: for every assignment marked submit-only, whatever its
storage kind, a successful submit stores the submission version (backup
written per the storage kind, version published as current), creates the
results directory and writes the placeholder grade file, and performs no
dispatch action: no testing bundle is built and the dispatcher is never
contacted. -/
theorem submit_only_never_dispatches (course : CourseConfig)
    (acfg : AssignmentConfig) (mc : MachineConfig) (p : PathsConfig)
    (entry : Option SubmissionIndexEntry) (s : StoreState) (new_sb : String)
    (ae : List String) (bp : String) (sk : Bool) (fo : Option Nat)
    (now : Nat) (transportOk : Bool)
    (hso : acfg.submitOnly = true)
    (hchk : check_valid_time course acfg entry
      (submitEffectiveParams sk fo now).2 now
      (submitEffectiveParams sk fo now).1 false = Except.ok ()) :
    submit course acfg mc p entry s new_sb ae bp sk fo now true true
        transportOk true =
      (Except.ok (), ⟨s.dirs ++ [new_sb], some new_sb⟩,
        ((submission_backup new_sb acfg.storageLarge true).1 ++
          (if s.cur.isSome then [Action.unlinkCur] else []) ++
          [Action.symlinkCur new_sb]) ++
        [Action.makeResultsDir new_sb, Action.writeGradeFile new_sb]) ∧
    ((submit course acfg mc p entry s new_sb ae bp sk fo now true true
        transportOk true).2.2.all fun a => !a.isDispatch) = true := by
  have hbk : (submission_backup new_sb acfg.storageLarge true).2 = true := by
    cases acfg.storageLarge <;> rfl
  have hsave : save_submission_in_storer s new_sb acfg.storageLarge true =
      (⟨s.dirs ++ [new_sb], some new_sb⟩, true,
        (submission_backup new_sb acfg.storageLarge true).1 ++
          (if s.cur.isSome then [Action.unlinkCur] else []) ++
          [Action.symlinkCur new_sb]) := by
    unfold save_submission_in_storer
    rw [if_pos hbk]
  have hmain : submit course acfg mc p entry s new_sb ae bp sk fo now true
      true transportOk true =
      (Except.ok (), ⟨s.dirs ++ [new_sb], some new_sb⟩,
        ((submission_backup new_sb acfg.storageLarge true).1 ++
          (if s.cur.isSome then [Action.unlinkCur] else []) ++
          [Action.symlinkCur new_sb]) ++
        [Action.makeResultsDir new_sb, Action.writeGradeFile new_sb]) := by
    unfold submit
    rw [hchk]
    rw [if_neg (by simp : ¬ (acfg.storageLarge = false ∧ true = false))]
    rw [hsave]
    rw [if_neg (by simp : ¬ ((true : Bool) = false)), if_pos hso,
      if_pos (rfl : (true : Bool) = true)]
  refine ⟨hmain, ?_⟩
  rw [hmain]
  cases hb : acfg.storageLarge <;> rcases s.cur with _ | c <;> rfl

/-- Witness for C9: a large-storage submit-only assignment inside the
window stores the version (md5 file copied), writes the placeholder
grade, and its trace holds no dispatch action. -/
theorem submit_only_never_dispatches_witness :
    submit ⟨0, 1000⟩ ⟨false, 0, 60, true, true⟩ ⟨"r", "b", ""⟩
        ⟨"t", "c", "s", "a"⟩ none ⟨[], none⟩ "v1" ["main.c"] "bundle.zip"
        false none 500 true true true true =
      (Except.ok (), ⟨["v1"], some "v1"⟩,
        [Action.makeDirs "v1", Action.writeConfig "v1", Action.copyMd5 "v1",
         Action.symlinkCur "v1", Action.makeResultsDir "v1",
         Action.writeGradeFile "v1"]) :=
  (submit_only_never_dispatches ⟨0, 1000⟩ ⟨false, 0, 60, true, true⟩
    ⟨"r", "b", ""⟩ ⟨"t", "c", "s", "a"⟩ none ⟨[], none⟩ "v1" ["main.c"]
    "bundle.zip" false none 500 true rfl (by decide)).1

/-- Claim C10: a forced upload time unconditionally skips the rate-limit
check — the caller's skip flag and the prior submission-index entry are
irrelevant to the result — while the window and hard-deadline checks
still run against the forced timestamp. -/
theorem forced_upload_time_skips_rate_check (course : CourseConfig)
    (acfg : AssignmentConfig) (mc : MachineConfig) (p : PathsConfig)
    (s : StoreState) (new_sb : String) (ae : List String) (bp : String)
    (now t : Nat) (sizeOk unzipOk transportOk resultsOk : Bool) :
    (∀ entry b₁ b₂,
      submit course acfg mc p entry s new_sb ae bp b₁ (some t) now
        sizeOk unzipOk transportOk resultsOk =
      submit course acfg mc p entry s new_sb ae bp b₂ (some t) now
        sizeOk unzipOk transportOk resultsOk) ∧
    (∀ entry₁ entry₂ b,
      submit course acfg mc p entry₁ s new_sb ae bp b (some t) now
        sizeOk unzipOk transportOk resultsOk =
      submit course acfg mc p entry₂ s new_sb ae bp b (some t) now
        sizeOk unzipOk transportOk resultsOk) ∧
    (∀ entry b, (t < course.activeStart ∨ course.activeStop < t) →
      submit course acfg mc p entry s new_sb ae bp b (some t) now
        sizeOk unzipOk transportOk resultsOk =
        (Except.error ⟨ErrorKind.submittedTooSoonError,
          windowMessage course.activeStart course.activeStop⟩, s, [])) ∧
    (∀ entry b, ¬ (t < course.activeStart ∨ course.activeStop < t) →
      acfg.isDeadlineHard = true → DEADLINE_GRACE_TIME + acfg.deadline < t →
      submit course acfg mc p entry s new_sb ae bp b (some t) now
        sizeOk unzipOk transportOk resultsOk =
        (Except.error ⟨ErrorKind.submittedTooLateError,
          tooLateMessage acfg.deadline t⟩, s, [])) := by
  refine ⟨fun entry b₁ b₂ => rfl, ?_, ?_, ?_⟩
  · intro entry₁ entry₂ b
    unfold submit
    rw [show (submitEffectiveParams b (some t) now) = (true, t) from rfl]
    rw [check_valid_time_skip_ignores_entry course acfg entry₁ entry₂ t now
      false]
  · intro entry b h
    unfold submit
    rw [show (submitEffectiveParams b (some t) now) = (true, t) from rfl]
    rw [check_valid_time_window_fail course acfg entry t now true false h]
  · intro entry b h1 h2 h3
    unfold submit
    rw [show (submitEffectiveParams b (some t) now) = (true, t) from rfl]
    rw [check_valid_time_deadline_fail course acfg entry t now true false
      h1 h2 h3]

/-- Witness for C10: with a forced upload time past the window stop, submit
fails with the window error against the forced timestamp, for any prior
index entry and with the skip flag left false. -/
theorem forced_upload_time_skips_rate_check_witness :
    submit ⟨0, 1000⟩ ⟨false, 0, 60, false, false⟩ ⟨"r", "b", ""⟩
        ⟨"t", "c", "s", "a"⟩ (some ⟨some 100, none⟩) ⟨[], none⟩ "v1"
        ["main.c"] "bundle.zip" false (some 2000) 500 true true true true =
      (Except.error ⟨ErrorKind.submittedTooSoonError, windowMessage 0 1000⟩,
        ⟨[], none⟩, []) :=
  (forced_upload_time_skips_rate_check ⟨0, 1000⟩ ⟨false, 0, 60, false, false⟩
    ⟨"r", "b", ""⟩ ⟨"t", "c", "s", "a"⟩ ⟨[], none⟩ "v1" ["main.c"]
    "bundle.zip" 500 2000 true true true true).2.2.1
    (some ⟨some 100, none⟩) false (by decide)

end Vmchecker
